import Mathlib

set_option maxHeartbeats 1000000

/-!
Shallow embedding of the Telegram bot in src/index.js (long-polling variant)
of the repository, together with the handler-level operations shared with the
webhook variant (src/unnamed/part_002).  JS plain objects keyed by user id are
modelled as association lists (first matching key wins, as for JS property
lookup); JS millisecond timestamps are modelled as Int; JS string truthiness
(the empty string is falsy) is modelled explicitly.  The `banned` object is
keyed by String because the /ban command indexes it with a raw string token
while the other sites index it with a numeric id (which JS coerces to its
decimal string).
-/

/-- Association-list lookup, modelling JS property read obj[k]. -/
def alGet {κ α : Type} [DecidableEq κ] : List (κ × α) → κ → Option α
  | [], _ => none
  | (k', v) :: t, k => if k' = k then some v else alGet t k

/-- Association-list update, modelling JS property write obj[k] = v. -/
def alSet {κ α : Type} [DecidableEq κ] : List (κ × α) → κ → α → List (κ × α)
  | [], k, v => [(k, v)]
  | (k', v') :: t, k, v => if k' = k then (k, v) :: t else (k', v') :: alSet t k v

/-- Association-list removal, modelling JS `delete obj[k]`. -/
def alDel {κ α : Type} [DecidableEq κ] : List (κ × α) → κ → List (κ × α)
  | [], _ => []
  | (k', v') :: t, k => if k' = k then alDel t k else (k', v') :: alDel t k

theorem alGet_alSet {κ α : Type} [DecidableEq κ] (l : List (κ × α)) (k k2 : κ) (v : α) :
    alGet (alSet l k v) k2 = if k = k2 then some v else alGet l k2 := by
  induction l with
  | nil => simp [alGet, alSet]
  | cons hd t ih =>
    obtain ⟨k', v'⟩ := hd
    by_cases hk : k' = k
    · subst hk
      by_cases hk2 : k' = k2 <;> simp [alSet, alGet, hk2]
    · by_cases hk2 : k' = k2
      · subst hk2
        simp [alSet, alGet, hk, Ne.symm hk]
      · simp [alSet, alGet, hk, hk2, ih]

theorem alGet_alDel {κ α : Type} [DecidableEq κ] (l : List (κ × α)) (k k2 : κ) :
    alGet (alDel l k) k2 = if k = k2 then none else alGet l k2 := by
  induction l with
  | nil => simp [alGet, alDel]
  | cons hd t ih =>
    obtain ⟨k', v'⟩ := hd
    by_cases hk : k' = k
    · subst hk
      by_cases hk2 : k' = k2
      · subst hk2; simp [alDel, ih]
      · simp [alDel, alGet, hk2, ih]
    · by_cases hk2 : k' = k2
      · subst hk2
        simp [alDel, hk, alGet, Ne.symm hk]
      · simp [alDel, hk, alGet, hk2, ih]

-- JS string helpers ---------------------------------------------------------

/-- Does `pat` occur at the head of the character list? -/
def matchHere : List Char → List Char → Bool
  | [], _ => true
  | _ :: _, [] => false
  | p :: ps, c :: cs => p == c && matchHere ps cs

/-- Does `pat` occur anywhere in the character list? -/
def hasSubAux (pat : List Char) : List Char → Bool
  | [] => pat.isEmpty
  | c :: cs => matchHere pat (c :: cs) || hasSubAux pat cs

/-- JS `s.includes(pat)`. -/
def jsIncludes (s pat : String) : Bool :=
  hasSubAux pat.toList s.toList

/-- JS truthiness of an optional string: undefined and "" are falsy. -/
def truthy : Option String → Bool
  | none => false
  | some s => s != ""

-- Data model (the four module-level objects of src/index.js) ----------------

/-- One entry of the `dailyPost` object: `{ text: 0, media: 0 }`. -/
structure UserQuota where
  text : Nat
  media : Nat
deriving DecidableEq, Repr

/-- The module-level mutable state of src/index.js: `dailyPost`,
`dailyDownload`, `welcomed`, `banned`. -/
structure BotState where
  dailyPost : List (Nat × UserQuota)
  dailyDownload : List (Nat × Nat)
  welcomed : List Nat
  banned : List (String × Int)
deriving DecidableEq, Repr

/-- All four structures start empty at process start. -/
def initState : BotState := ⟨[], [], [], []⟩

inductive ChatType where
  | privateChat
  | group
  | supergroup
  | channel
deriving DecidableEq, Repr

/-- One element of `message.new_chat_members`. -/
structure Member where
  id : Nat
  firstName : String
deriving DecidableEq, Repr

/-- The fields of a Telegram message the handlers read. -/
structure Message where
  text : Option String
  caption : Option String
  photo : Bool
  video : Bool
  newChatMembers : List Member
  messageId : Nat
deriving DecidableEq, Repr

/-- The parts of the Telegraf ctx the handlers read. -/
structure Ctx where
  chatType : ChatType
  chatId : Nat
  fromId : Nat
  fromFirstName : String
  fromUsername : Option String
  message : Message
deriving DecidableEq, Repr

/-- Environment configuration: TARGET_CHANNEL_ID, LOG_CHANNEL_ID, OWNER_ID. -/
structure Config where
  target : Nat
  logChat : Nat
  owner : Nat
deriving DecidableEq, Repr

/-- Observable platform actions a handler performs.  `welcome` stands for the
`ctx.reply` of the welcome text and additionally records the id of the member
that triggered it, so that per-identifier emission can be stated. -/
inductive Effect where
  | reply (text : String)
  | sendMessage (chat : Nat) (text : String)
  | copyMessage (toChat fromChat msgId : Nat)
  | deleteMessage
  | welcome (uid : Nat) (text : String)
  | kickMember (chat : Nat) (uid : String)
deriving DecidableEq, Repr

-- ===== UTIL =====

/-- `isBanned`: `banned[id] && banned[id] > Date.now()`.  The stored number is
falsy in JS exactly when it is 0. -/
def isBanned (s : BotState) (id : Nat) (now : Int) : Bool :=
  match alGet s.banned (toString id) with
  | none => false
  | some e => if e = 0 then false else decide (e > now)

/-- The body of the LOG POST message sent by `log`. -/
def logBody (ctx : Ctx) (gender content : String) : String :=
  "📄 LOG POST\nNama: " ++ ctx.fromFirstName ++ "\nUsername: @" ++
    (match ctx.fromUsername with
     | none => "-"
     | some u => if u = "" then "-" else u) ++
    "\nID: " ++ toString ctx.fromId ++ "\nGender: " ++ gender ++
    "\nIsi: " ++ content

-- ===== MEMBER POST =====

/-- `ctx.message.text || ctx.message.caption || ""`. -/
def jsOrText (m : Message) : String :=
  if truthy m.text then m.text.getD ""
  else if truthy m.caption then m.caption.getD "" else ""

/-- The gender classification: `text.includes("#pria") ? "Pria" :
text.includes("#wanita") ? "Wanita" : null`. -/
def genderOf (t : String) : Option String :=
  if jsIncludes t "#pria" then some "Pria"
  else if jsIncludes t "#wanita" then some "Wanita" else none

/-- Current post quota of a user (absent entry reads as zeroes). -/
def postQuota (s : BotState) (uid : Nat) : UserQuota :=
  (alGet s.dailyPost uid).getD ⟨0, 0⟩

def textCount (s : BotState) (uid : Nat) : Nat := (postQuota s uid).text

def mediaCount (s : BotState) (uid : Nat) : Nat := (postQuota s uid).media

def dlCount (s : BotState) (uid : Nat) : Nat := (alGet s.dailyDownload uid).getD 0

/-- `dailyPost[ctx.from.id] ??= { text: 0, media: 0 }`. -/
def ensurePost (s : BotState) (uid : Nat) : BotState :=
  match alGet s.dailyPost uid with
  | some _ => s
  | none => { s with dailyPost := alSet s.dailyPost uid ⟨0, 0⟩ }

/-- The `=== MEDIA ===` part of the member-post handler, entered after the
text part (which supplies the effects emitted so far). -/
def mediaStep (cfg : Config) (s : BotState) (ctx : Ctx) (g : String)
    (effs : List Effect) : BotState × List Effect :=
  if ctx.message.photo || ctx.message.video then
    if (postQuota s ctx.fromId).media ≥ 10 then
      (s, effs ++ [Effect.reply "❌ Batas media harian tercapai"])
    else
      let q := postQuota s ctx.fromId
      ({ s with dailyPost := alSet s.dailyPost ctx.fromId ({ q with media := q.media + 1 }) },
       effs ++ [Effect.copyMessage cfg.target ctx.chatId ctx.message.messageId,
                Effect.sendMessage cfg.logChat (logBody ctx g "MEDIA")])
  else (s, effs)

/-- The `bot.on(["text", "photo", "video"], ...)` member-post handler. -/
def memberPost (cfg : Config) (now : Int) (s : BotState) (ctx : Ctx) :
    BotState × List Effect :=
  if ctx.chatType ≠ ChatType.privateChat then (s, [])
  else if isBanned s ctx.fromId now then
    (s, [Effect.reply "⛔ Kamu sedang diban sementara."])
  else
    match genderOf (jsOrText ctx.message) with
    | none => (s, [Effect.reply "Wajib sertakan #pria atau #wanita"])
    | some g =>
      let s1 := ensurePost s ctx.fromId
      if truthy ctx.message.text then
        if (postQuota s1 ctx.fromId).text ≥ 5 then
          (s1, [Effect.reply "❌ Batas teks harian tercapai"])
        else
          let q := postQuota s1 ctx.fromId
          let s2 := { s1 with
            dailyPost := alSet s1.dailyPost ctx.fromId ({ q with text := q.text + 1 }) }
          mediaStep cfg s2 ctx g
            [Effect.sendMessage cfg.target (ctx.message.text.getD ""),
             Effect.sendMessage cfg.logChat (logBody ctx g (ctx.message.text.getD ""))]
      else mediaStep cfg s1 ctx g []

-- ===== DOWNLOAD LIMIT =====

/-- The regex `/https?:\/\//` of `bot.hears`, as an unanchored match. -/
def hearsLink (t : String) : Bool :=
  jsIncludes t "http://" || jsIncludes t "https://"

/-- The `bot.hears(/https?:\/\//, ...)` download-limit handler. -/
def downloadHandler (s : BotState) (ctx : Ctx) : BotState × List Effect :=
  let s1 :=
    match alGet s.dailyDownload ctx.fromId with
    | some _ => s
    | none => { s with dailyDownload := alSet s.dailyDownload ctx.fromId 0 }
  let c := (alGet s1.dailyDownload ctx.fromId).getD 0
  if c ≥ 2 then
    (s1, [Effect.reply "❌ Limit download harian tercapai"])
  else
    ({ s1 with dailyDownload := alSet s1.dailyDownload ctx.fromId (c + 1) },
     [Effect.reply "🔽 Link diterima. (Downloader eksternal bisa ditambahkan)"])

-- ===== ANTI LINK GROUP =====

/-- The `bot.on("message", ...)` anti-link handler.  `memberStatus` is the
`status` field returned by the external `ctx.getChatMember` call.  This
middleware always passes control on (it ends with `next()`). -/
def antiLink (now : Int) (memberStatus : String) (s : BotState) (ctx : Ctx) :
    BotState × List Effect :=
  if ctx.chatType = ChatType.privateChat then (s, [])
  else if ctx.chatType = ChatType.group ∨ ctx.chatType = ChatType.supergroup then
    if (match ctx.message.text with
        | some t => jsIncludes t "http"
        | none => false) then
      if memberStatus ≠ "administrator" then
        ({ s with banned := alSet s.banned (toString ctx.fromId) (now + 60 * 60 * 1000) },
         [Effect.deleteMessage])
      else (s, [])
    else (s, [])
  else (s, [])

-- ===== WELCOME =====

/-- One iteration of the `forEach` over `message.new_chat_members`. -/
def welcomeStep (acc : BotState × List Effect) (u : Member) : BotState × List Effect :=
  if u.id ∈ acc.1.welcomed then acc
  else ({ acc.1 with welcomed := u.id :: acc.1.welcomed },
        acc.2 ++ [Effect.welcome u.id ("👋 Selamat datang " ++ u.firstName)])

/-- The `bot.on("new_chat_members", ...)` handler. -/
def welcomeHandler (s : BotState) (ctx : Ctx) : BotState × List Effect :=
  ctx.message.newChatMembers.foldl welcomeStep (s, [])

-- ===== ADMIN =====

/-- `(jam || 1)`: the split token is falsy exactly when absent or empty; the
token "0" is truthy and evaluates to 0.  The argument value is the numeric
value of the token (non-numeric tokens, which yield NaN in JS, are outside
the model). -/
def jsOrInt (j : Option Int) : Int :=
  match j with
  | none => 1
  | some v => v

/-- The `bot.command("ban")` handler.  `targetId` is the raw string token
after the command name (JS uses it directly as the `banned` object key). -/
def banCmd (cfg : Config) (now : Int) (s : BotState) (senderId : Nat)
    (targetId : String) (jam : Option Int) : BotState × List Effect :=
  if senderId ≠ cfg.owner then (s, [])
  else
    ({ s with banned := alSet s.banned targetId (now + jsOrInt jam * (60 * 60 * 1000)) },
     [Effect.reply ("User " ++ targetId ++ " diban")])

/-- The `bot.command("unban")` handler. -/
def unbanCmd (cfg : Config) (s : BotState) (senderId : Nat) (targetId : String) :
    BotState × List Effect :=
  if senderId ≠ cfg.owner then (s, [])
  else ({ s with banned := alDel s.banned targetId }, [Effect.reply "Unban berhasil"])

/-- The `bot.command("kick")` handler. -/
def kickCmd (cfg : Config) (s : BotState) (senderId : Nat) (chatId : Nat)
    (targetId : String) : BotState × List Effect :=
  if senderId ≠ cfg.owner then (s, [])
  else (s, [Effect.kickMember chatId targetId, Effect.reply "User dikick"])

-- ===== DISPATCH (Telegraf middleware chain of src/index.js) =====

/-- Does the update match `bot.on(["text", "photo", "video"], ...)`? -/
def matchesPost (m : Message) : Bool :=
  m.text.isSome || m.photo || m.video

/-- Does the text start with the given slash command? -/
def cmdParts (t : String) : List String := t.splitOn " "

def isCmd (t : String) (name : String) : Bool :=
  ((cmdParts t).headD "") == ("/" ++ name)

/-- Numeric value of an optional argument token (JS `jam || 1` coercion input);
an absent or empty token is falsy. -/
def jamValue (tok : Option String) : Option Int :=
  match tok with
  | none => none
  | some s => if s = "" then none else String.toInt? s

/-- One full pass of an inbound message update through the middleware chain of
src/index.js, in registration order: member-post handler (consumes every
text/photo/video update: it never calls next), hears download handler
(consumes), anti-link handler (always calls next), welcome handler (consumes),
then the three commands. -/
def dispatch (cfg : Config) (now : Int) (memberStatus : String) (s : BotState)
    (ctx : Ctx) : BotState × List Effect :=
  if matchesPost ctx.message then memberPost cfg now s ctx
  else if (match ctx.message.text with
           | some t => hearsLink t
           | none => false) then downloadHandler s ctx
  else
    let r1 := antiLink now memberStatus s ctx
    if ctx.message.newChatMembers ≠ [] then
      let r2 := welcomeHandler r1.1 ctx
      (r2.1, r1.2 ++ r2.2)
    else
      match ctx.message.text with
      | some t =>
        if isCmd t "ban" then
          let r2 := banCmd cfg now r1.1 ctx.fromId ((cmdParts t).getD 1 "undefined")
            (jamValue ((cmdParts t).get? 2))
          (r2.1, r1.2 ++ r2.2)
        else if isCmd t "unban" then
          let r2 := unbanCmd cfg r1.1 ctx.fromId ((cmdParts t).getD 1 "undefined")
          (r2.1, r1.2 ++ r2.2)
        else if isCmd t "kick" then
          let r2 := kickCmd cfg r1.1 ctx.fromId ctx.chatId ((cmdParts t).getD 1 "undefined")
          (r2.1, r1.2 ++ r2.2)
        else (r1.1, r1.2)
      | none => (r1.1, r1.2)

/-- `resetDaily`: clears the two quota objects. -/
def applyReset (s : BotState) : BotState :=
  { s with dailyPost := [], dailyDownload := [] }

/-- An event of a process run: an inbound update (with its arrival time and
the administrator status the platform reports for the sender), or a firing of
the 24-hour `setInterval(resetDaily, ...)` timer. -/
inductive Ev where
  | upd (now : Int) (memberStatus : String) (ctx : Ctx)
  | reset
deriving Repr

def stepEv (cfg : Config) (s : BotState) : Ev → BotState × List Effect
  | Ev.upd now st ctx => dispatch cfg now st s ctx
  | Ev.reset => (applyReset s, [])

/-- Run a list of events from a state, accumulating the emitted effects. -/
def runEv (cfg : Config) (s : BotState) : List Ev → BotState × List Effect
  | [] => (s, [])
  | e :: t =>
    let r1 := stepEv cfg s e
    let r2 := runEv cfg r1.1 t
    (r2.1, r1.2 ++ r2.2)

-- Basic observation lemmas ---------------------------------------------------

theorem postQuota_update (s : BotState) (k : Nat) (q : UserQuota) (u : Nat) :
    postQuota { s with dailyPost := alSet s.dailyPost k q } u
      = if k = u then q else postQuota s u := by
  unfold postQuota
  simp only [alGet_alSet]
  split <;> rfl

@[simp] theorem postQuota_ensure (s : BotState) (k u : Nat) :
    postQuota (ensurePost s k) u = postQuota s u := by
  unfold ensurePost
  cases h : alGet s.dailyPost k with
  | some q => rfl
  | none =>
    by_cases hku : k = u
    · subst hku
      simp [postQuota, alGet_alSet, h]
    · simp [postQuota, alGet_alSet, hku]

@[simp] theorem ensurePost_dailyDownload (s : BotState) (k : Nat) :
    (ensurePost s k).dailyDownload = s.dailyDownload := by
  unfold ensurePost; cases alGet s.dailyPost k <;> rfl

@[simp] theorem ensurePost_banned (s : BotState) (k : Nat) :
    (ensurePost s k).banned = s.banned := by
  unfold ensurePost; cases alGet s.dailyPost k <;> rfl

@[simp] theorem ensurePost_welcomed (s : BotState) (k : Nat) :
    (ensurePost s k).welcomed = s.welcomed := by
  unfold ensurePost; cases alGet s.dailyPost k <;> rfl

theorem ensurePost_of_some (s : BotState) (k : Nat) (q : UserQuota)
    (h : alGet s.dailyPost k = some q) : ensurePost s k = s := by
  unfold ensurePost; rw [h]

theorem alGet_dailyPost_of_text_pos (s : BotState) (u : Nat)
    (h : 0 < textCount s u) : alGet s.dailyPost u = some (postQuota s u) := by
  unfold textCount postQuota at *
  cases hg : alGet s.dailyPost u with
  | some q => rfl
  | none => rw [hg] at h; simp at h

theorem alGet_dailyPost_of_media_pos (s : BotState) (u : Nat)
    (h : 0 < mediaCount s u) : alGet s.dailyPost u = some (postQuota s u) := by
  unfold mediaCount postQuota at *
  cases hg : alGet s.dailyPost u with
  | some q => rfl
  | none => rw [hg] at h; simp at h

theorem alGet_dailyDownload_of_pos (s : BotState) (u : Nat)
    (h : 0 < dlCount s u) : alGet s.dailyDownload u = some (dlCount s u) := by
  unfold dlCount at *
  cases hg : alGet s.dailyDownload u with
  | some q => rfl
  | none => rw [hg] at h; simp at h

-- mediaStep lemmas -----------------------------------------------------------

@[simp] theorem mediaStep_dailyDownload (cfg : Config) (s : BotState) (ctx : Ctx)
    (g : String) (effs : List Effect) :
    (mediaStep cfg s ctx g effs).1.dailyDownload = s.dailyDownload := by
  unfold mediaStep
  split
  · split <;> rfl
  · rfl

@[simp] theorem mediaStep_banned (cfg : Config) (s : BotState) (ctx : Ctx)
    (g : String) (effs : List Effect) :
    (mediaStep cfg s ctx g effs).1.banned = s.banned := by
  unfold mediaStep
  split
  · split <;> rfl
  · rfl

@[simp] theorem mediaStep_welcomed (cfg : Config) (s : BotState) (ctx : Ctx)
    (g : String) (effs : List Effect) :
    (mediaStep cfg s ctx g effs).1.welcomed = s.welcomed := by
  unfold mediaStep
  split
  · split <;> rfl
  · rfl

@[simp] theorem mediaStep_text (cfg : Config) (s : BotState) (ctx : Ctx)
    (g : String) (effs : List Effect) (u : Nat) :
    textCount (mediaStep cfg s ctx g effs).1 u = textCount s u := by
  unfold mediaStep
  by_cases hpv : (ctx.message.photo || ctx.message.video) = true
  · by_cases hq : (postQuota s ctx.fromId).media ≥ 10
    · simp [hpv, hq]
    · by_cases hu : ctx.fromId = u
      · subst hu; simp [hpv, hq, textCount, postQuota_update]
      · simp [hpv, hq, textCount, postQuota_update, hu]
  · simp [hpv]

theorem mediaStep_media_cases (cfg : Config) (s : BotState) (ctx : Ctx)
    (g : String) (effs : List Effect) (u : Nat) :
    mediaCount (mediaStep cfg s ctx g effs).1 u = mediaCount s u ∨
      (ctx.fromId = u ∧ mediaCount s u < 10 ∧
        mediaCount (mediaStep cfg s ctx g effs).1 u = mediaCount s u + 1) := by
  unfold mediaStep
  by_cases hpv : (ctx.message.photo || ctx.message.video) = true
  · by_cases hq : (postQuota s ctx.fromId).media ≥ 10
    · left; simp [hpv, hq]
    · by_cases hu : ctx.fromId = u
      · subst hu
        right
        refine ⟨rfl, ?_, ?_⟩
        · simp only [mediaCount]; omega
        · simp [hpv, hq, mediaCount, postQuota_update]
      · left; simp [hpv, hq, mediaCount, postQuota_update, hu]
  · left; simp [hpv]

-- Frame lemmas: which state components each handler leaves untouched --------

theorem memberPost_frame (cfg : Config) (now : Int) (s : BotState) (ctx : Ctx) :
    (memberPost cfg now s ctx).1.dailyDownload = s.dailyDownload ∧
    (memberPost cfg now s ctx).1.banned = s.banned ∧
    (memberPost cfg now s ctx).1.welcomed = s.welcomed := by
  unfold memberPost
  by_cases hp : ctx.chatType ≠ ChatType.privateChat
  · simp [hp]
  · by_cases hb : isBanned s ctx.fromId now = true
    · simp [hp, hb]
    · cases hg : genderOf (jsOrText ctx.message) with
      | none => simp [hp, hb, hg]
      | some g =>
        by_cases htt : truthy ctx.message.text = true
        · by_cases hq : 5 ≤ (postQuota s ctx.fromId).text
          · simp [hp, hb, hg, htt, hq]
          · simp [hp, hb, hg, htt, hq]
        · simp [hp, hb, hg, htt]

theorem welcomeFold_frame (members : List Member) (acc : BotState × List Effect) :
    (members.foldl welcomeStep acc).1.dailyPost = acc.1.dailyPost ∧
    (members.foldl welcomeStep acc).1.dailyDownload = acc.1.dailyDownload ∧
    (members.foldl welcomeStep acc).1.banned = acc.1.banned := by
  induction members generalizing acc with
  | nil => exact ⟨rfl, rfl, rfl⟩
  | cons m rest ih =>
    rw [List.foldl_cons]
    have h := ih (welcomeStep acc m)
    have hstep : (welcomeStep acc m).1.dailyPost = acc.1.dailyPost ∧
        (welcomeStep acc m).1.dailyDownload = acc.1.dailyDownload ∧
        (welcomeStep acc m).1.banned = acc.1.banned := by
      unfold welcomeStep
      by_cases hm : m.id ∈ acc.1.welcomed <;> simp [hm]
    exact ⟨h.1.trans hstep.1, h.2.1.trans hstep.2.1, h.2.2.trans hstep.2.2⟩

theorem welcomeHandler_frame (s : BotState) (ctx : Ctx) :
    (welcomeHandler s ctx).1.dailyPost = s.dailyPost ∧
    (welcomeHandler s ctx).1.dailyDownload = s.dailyDownload ∧
    (welcomeHandler s ctx).1.banned = s.banned :=
  welcomeFold_frame ctx.message.newChatMembers (s, [])

theorem downloadHandler_frame (s : BotState) (ctx : Ctx) :
    (downloadHandler s ctx).1.dailyPost = s.dailyPost ∧
    (downloadHandler s ctx).1.banned = s.banned ∧
    (downloadHandler s ctx).1.welcomed = s.welcomed := by
  unfold downloadHandler
  cases hdl : alGet s.dailyDownload ctx.fromId with
  | some c => by_cases hq : 2 ≤ c <;> simp [hdl, hq]
  | none => by_cases hq : (2 : Nat) ≤ 0 <;> simp [hdl, hq, alGet_alSet]

theorem antiLink_frame (now : Int) (st : String) (s : BotState) (ctx : Ctx) :
    (antiLink now st s ctx).1.dailyPost = s.dailyPost ∧
    (antiLink now st s ctx).1.dailyDownload = s.dailyDownload ∧
    (antiLink now st s ctx).1.welcomed = s.welcomed := by
  unfold antiLink
  by_cases h1 : ctx.chatType = ChatType.privateChat
  · simp [h1]
  · by_cases h2 : ctx.chatType = ChatType.group ∨ ctx.chatType = ChatType.supergroup
    · by_cases h3 : (match ctx.message.text with
        | some t => jsIncludes t "http"
        | none => false) = true
      · by_cases h4 : st ≠ "administrator" <;> simp [h1, h2, h3, h4]
      · simp [h1, h2, h3]
    · simp [h1, h2]

/-- The anti-link middleware does nothing on a message without text. -/
theorem antiLink_no_text (now : Int) (st : String) (s : BotState) (ctx : Ctx)
    (h : ctx.message.text = none) : antiLink now st s ctx = (s, []) := by
  unfold antiLink
  by_cases h1 : ctx.chatType = ChatType.privateChat
  · simp [h1]
  · by_cases h2 : ctx.chatType = ChatType.group ∨ ctx.chatType = ChatType.supergroup <;>
      simp [h1, h2, h]

-- Counter delta lemmas -------------------------------------------------------

theorem getD_alGet_ensurePost (s : BotState) (k u : Nat) :
    (alGet (ensurePost s k).dailyPost u).getD ⟨0, 0⟩ = postQuota s u :=
  postQuota_ensure s k u

theorem postQuota_alSet (dp : List (Nat × UserQuota)) (dd : List (Nat × Nat))
    (w : List Nat) (b : List (String × Int)) (k : Nat) (q : UserQuota) (u : Nat) :
    postQuota ⟨alSet dp k q, dd, w, b⟩ u
      = if k = u then q else (alGet dp u).getD ⟨0, 0⟩ := by
  unfold postQuota
  simp only [alGet_alSet]
  split <;> rfl

theorem textCount_congr {s1 s2 : BotState} (u : Nat)
    (h : s1.dailyPost = s2.dailyPost) : textCount s1 u = textCount s2 u := by
  unfold textCount postQuota; rw [h]

theorem mediaCount_congr {s1 s2 : BotState} (u : Nat)
    (h : s1.dailyPost = s2.dailyPost) : mediaCount s1 u = mediaCount s2 u := by
  unfold mediaCount postQuota; rw [h]

theorem dlCount_congr {s1 s2 : BotState} (u : Nat)
    (h : s1.dailyDownload = s2.dailyDownload) : dlCount s1 u = dlCount s2 u := by
  unfold dlCount; rw [h]

theorem mediaStep_postQuota_text (cfg : Config) (s : BotState) (ctx : Ctx)
    (g : String) (effs : List Effect) (u : Nat) :
    (postQuota (mediaStep cfg s ctx g effs).1 u).text = (postQuota s u).text :=
  mediaStep_text cfg s ctx g effs u

theorem memberPost_text_cases (cfg : Config) (now : Int) (s : BotState) (ctx : Ctx)
    (u : Nat) :
    textCount (memberPost cfg now s ctx).1 u = textCount s u ∨
      (ctx.fromId = u ∧ textCount s u < 5 ∧
        textCount (memberPost cfg now s ctx).1 u = textCount s u + 1) := by
  unfold memberPost
  by_cases hp : ctx.chatType ≠ ChatType.privateChat
  · left; simp [hp]
  by_cases hb : isBanned s ctx.fromId now = true
  · left; simp [hp, hb]
  cases hg : genderOf (jsOrText ctx.message) with
  | none => left; simp [hp, hb, hg]
  | some g =>
    by_cases htt : truthy ctx.message.text = true
    · by_cases hq : 5 ≤ (postQuota s ctx.fromId).text
      · left
        simp [hp, hb, hg, htt, hq, textCount]
      · by_cases hu : ctx.fromId = u
        · subst hu
          right
          refine ⟨rfl, by simp only [textCount]; omega, ?_⟩
          simp [hp, hb, hg, htt, hq, textCount, postQuota_alSet, getD_alGet_ensurePost,
            mediaStep_postQuota_text]
        · left
          simp [hp, hb, hg, htt, hq, textCount, postQuota_alSet, getD_alGet_ensurePost,
            mediaStep_postQuota_text, hu]
    · left
      simp [hp, hb, hg, htt, textCount, mediaStep_postQuota_text]

/-- Transfer of `mediaStep_media_cases` along a state with equal media counts. -/
theorem mediaStep_media_cases2 (cfg : Config) (s0 s : BotState) (ctx : Ctx)
    (g : String) (effs : List Effect) (u : Nat)
    (hms : mediaCount s u = mediaCount s0 u)
    (hfid : mediaCount s ctx.fromId = mediaCount s0 ctx.fromId) :
    mediaCount (mediaStep cfg s ctx g effs).1 u = mediaCount s0 u ∨
      (ctx.fromId = u ∧ mediaCount s0 u < 10 ∧
        mediaCount (mediaStep cfg s ctx g effs).1 u = mediaCount s0 u + 1) := by
  rcases mediaStep_media_cases cfg s ctx g effs u with h | ⟨h1, h2, h3⟩
  · left; rw [h, hms]
  · right
    subst h1
    exact ⟨rfl, by omega, by rw [h3, hfid]⟩

theorem memberPost_media_cases (cfg : Config) (now : Int) (s : BotState) (ctx : Ctx)
    (u : Nat) :
    mediaCount (memberPost cfg now s ctx).1 u = mediaCount s u ∨
      (ctx.fromId = u ∧ mediaCount s u < 10 ∧
        mediaCount (memberPost cfg now s ctx).1 u = mediaCount s u + 1) := by
  unfold memberPost
  by_cases hp : ctx.chatType ≠ ChatType.privateChat
  · left; simp [hp]
  by_cases hb : isBanned s ctx.fromId now = true
  · left; simp [hp, hb]
  cases hg : genderOf (jsOrText ctx.message) with
  | none => left; simp [hp, hb, hg]
  | some g =>
    by_cases hpv : (ctx.message.photo || ctx.message.video) = true
    · by_cases hmq : 10 ≤ (postQuota s ctx.fromId).media
      · left
        by_cases htt : truthy ctx.message.text = true
        · by_cases hq : 5 ≤ (postQuota s ctx.fromId).text
          · simp [hp, hb, hg, htt, hq, mediaCount]
          · by_cases hu : ctx.fromId = u
            · subst hu
              simp [hp, hb, hg, htt, hq, hpv, hmq, mediaStep, mediaCount,
                postQuota_alSet, alGet_alSet, getD_alGet_ensurePost]
            · simp [hp, hb, hg, htt, hq, hpv, hmq, mediaStep, mediaCount,
                postQuota_alSet, alGet_alSet, getD_alGet_ensurePost, hu]
        · simp [hp, hb, hg, htt, hpv, hmq, mediaStep, mediaCount,
            getD_alGet_ensurePost]
      · by_cases htt : truthy ctx.message.text = true
        · by_cases hq : 5 ≤ (postQuota s ctx.fromId).text
          · left
            simp [hp, hb, hg, htt, hq, mediaCount]
          · by_cases hu : ctx.fromId = u
            · subst hu
              right
              refine ⟨rfl, by simp only [mediaCount]; omega, ?_⟩
              simp [hp, hb, hg, htt, hq, hpv, hmq, mediaStep, mediaCount,
                postQuota_alSet, alGet_alSet, getD_alGet_ensurePost]
            · left
              simp [hp, hb, hg, htt, hq, hpv, hmq, mediaStep, mediaCount,
                postQuota_alSet, alGet_alSet, getD_alGet_ensurePost, hu]
        · by_cases hu : ctx.fromId = u
          · subst hu
            right
            refine ⟨rfl, by simp only [mediaCount]; omega, ?_⟩
            simp [hp, hb, hg, htt, hpv, hmq, mediaStep, mediaCount,
              postQuota_alSet, alGet_alSet, getD_alGet_ensurePost]
          · left
            simp [hp, hb, hg, htt, hpv, hmq, mediaStep, mediaCount,
              postQuota_alSet, alGet_alSet, getD_alGet_ensurePost, hu]
    · left
      by_cases htt : truthy ctx.message.text = true
      · by_cases hq : 5 ≤ (postQuota s ctx.fromId).text
        · simp [hp, hb, hg, htt, hq, mediaCount]
        · by_cases hu : ctx.fromId = u
          · subst hu
            simp [hp, hb, hg, htt, hq, hpv, mediaStep, mediaCount,
              postQuota_alSet, alGet_alSet, getD_alGet_ensurePost]
          · simp [hp, hb, hg, htt, hq, hpv, mediaStep, mediaCount,
              postQuota_alSet, alGet_alSet, getD_alGet_ensurePost, hu]
      · simp [hp, hb, hg, htt, hpv, mediaStep, mediaCount, getD_alGet_ensurePost]

theorem downloadHandler_dl_cases (s : BotState) (ctx : Ctx) (u : Nat) :
    dlCount (downloadHandler s ctx).1 u = dlCount s u ∨
      (ctx.fromId = u ∧ dlCount s u < 2 ∧
        dlCount (downloadHandler s ctx).1 u = dlCount s u + 1) := by
  unfold downloadHandler
  cases hdl : alGet s.dailyDownload ctx.fromId with
  | some c =>
    by_cases hq : 2 ≤ c
    · left; simp [hdl, hq]
    · by_cases hu : ctx.fromId = u
      · subst hu
        right
        refine ⟨rfl, ?_, ?_⟩
        · simp [dlCount, hdl]; omega
        · simp [hdl, hq, dlCount, alGet_alSet]
      · left; simp [hdl, hq, dlCount, alGet_alSet, hu]
  | none =>
    by_cases hu : ctx.fromId = u
    · subst hu
      right
      refine ⟨rfl, ?_, ?_⟩
      · simp [dlCount, hdl]
      · simp [hdl, dlCount, alGet_alSet]
    · left; simp [hdl, dlCount, alGet_alSet, hu]

-- Dispatch characterization --------------------------------------------------

theorem matchesPost_eq_false_text {m : Message} (h : matchesPost m = false) :
    m.text = none := by
  unfold matchesPost at h
  cases hm : m.text with
  | none => rfl
  | some t => rw [hm] at h; simp at h

/-- The full middleware chain reduces to: the member-post handler on every
text/photo/video update, the welcome handler on new-member service messages,
and a no-op otherwise.  In particular the hears download handler, the
anti-link ban, and the three commands are unreachable: every update carrying
text is consumed by the member-post handler first. -/
theorem dispatch_eq (cfg : Config) (now : Int) (st : String) (s : BotState)
    (ctx : Ctx) :
    dispatch cfg now st s ctx =
      if matchesPost ctx.message then memberPost cfg now s ctx
      else if ctx.message.newChatMembers ≠ [] then welcomeHandler s ctx
      else (s, []) := by
  unfold dispatch
  by_cases hm : matchesPost ctx.message = true
  · simp [hm]
  · have hm' : matchesPost ctx.message = false := by
      cases hmb : matchesPost ctx.message
      · rfl
      · exact absurd hmb hm
    have ht : ctx.message.text = none := matchesPost_eq_false_text hm'
    by_cases hmem : ctx.message.newChatMembers = [] <;>
      simp [hm', ht, hmem, antiLink_no_text now st s ctx ht]

theorem dispatch_dailyDownload (cfg : Config) (now : Int) (st : String)
    (s : BotState) (ctx : Ctx) :
    (dispatch cfg now st s ctx).1.dailyDownload = s.dailyDownload := by
  rw [dispatch_eq]
  split
  · exact (memberPost_frame cfg now s ctx).1
  split
  · exact (welcomeHandler_frame s ctx).2.1
  · rfl

theorem dispatch_banned (cfg : Config) (now : Int) (st : String)
    (s : BotState) (ctx : Ctx) :
    (dispatch cfg now st s ctx).1.banned = s.banned := by
  rw [dispatch_eq]
  split
  · exact (memberPost_frame cfg now s ctx).2.1
  split
  · exact (welcomeHandler_frame s ctx).2.2
  · rfl

theorem dispatch_text_cases (cfg : Config) (now : Int) (st : String)
    (s : BotState) (ctx : Ctx) (u : Nat) :
    textCount (dispatch cfg now st s ctx).1 u = textCount s u ∨
      (ctx.fromId = u ∧ textCount s u < 5 ∧
        textCount (dispatch cfg now st s ctx).1 u = textCount s u + 1) := by
  rw [dispatch_eq]
  split
  · exact memberPost_text_cases cfg now s ctx u
  split
  · exact Or.inl (textCount_congr u (welcomeHandler_frame s ctx).1)
  · exact Or.inl rfl

theorem dispatch_media_cases (cfg : Config) (now : Int) (st : String)
    (s : BotState) (ctx : Ctx) (u : Nat) :
    mediaCount (dispatch cfg now st s ctx).1 u = mediaCount s u ∨
      (ctx.fromId = u ∧ mediaCount s u < 10 ∧
        mediaCount (dispatch cfg now st s ctx).1 u = mediaCount s u + 1) := by
  rw [dispatch_eq]
  split
  · exact memberPost_media_cases cfg now s ctx u
  split
  · exact Or.inl (mediaCount_congr u (welcomeHandler_frame s ctx).1)
  · exact Or.inl rfl

theorem dispatch_dlCount (cfg : Config) (now : Int) (st : String)
    (s : BotState) (ctx : Ctx) (u : Nat) :
    dlCount (dispatch cfg now st s ctx).1 u = dlCount s u :=
  dlCount_congr u (dispatch_dailyDownload cfg now st s ctx)

-- Characterizations of the member-post handler used by the claims ------------

/-- A banned sender is rejected with the fixed ban message, and nothing else
happens, for any private text/photo/video update. -/
theorem memberPost_banned (cfg : Config) (now : Int) (s : BotState) (ctx : Ctx)
    (hp : ctx.chatType = ChatType.privateChat)
    (hb : isBanned s ctx.fromId now = true) :
    memberPost cfg now s ctx = (s, [Effect.reply "⛔ Kamu sedang diban sementara."]) := by
  unfold memberPost
  simp [hp, hb]

/-- A non-private update is ignored by the member-post handler. -/
theorem memberPost_nonprivate (cfg : Config) (now : Int) (s : BotState) (ctx : Ctx)
    (hp : ctx.chatType ≠ ChatType.privateChat) :
    memberPost cfg now s ctx = (s, []) := by
  unfold memberPost
  simp [hp]

/-- A private post without a classification tag is rejected with the fixed
tag message and nothing else happens. -/
theorem memberPost_no_tag (cfg : Config) (now : Int) (s : BotState) (ctx : Ctx)
    (hp : ctx.chatType = ChatType.privateChat)
    (hb : isBanned s ctx.fromId now = false)
    (hg : genderOf (jsOrText ctx.message) = none) :
    memberPost cfg now s ctx = (s, [Effect.reply "Wajib sertakan #pria atau #wanita"]) := by
  unfold memberPost
  simp [hp, hb, hg]

/-- Text post at the limit: rejected with the fixed quota message, state
exactly unchanged. -/
theorem memberPost_text_limit (cfg : Config) (now : Int) (s : BotState) (ctx : Ctx)
    (g : String)
    (hp : ctx.chatType = ChatType.privateChat)
    (hb : isBanned s ctx.fromId now = false)
    (hg : genderOf (jsOrText ctx.message) = some g)
    (htt : truthy ctx.message.text = true)
    (hq : 5 ≤ textCount s ctx.fromId) :
    memberPost cfg now s ctx = (s, [Effect.reply "❌ Batas teks harian tercapai"]) := by
  have hsome : alGet s.dailyPost ctx.fromId = some (postQuota s ctx.fromId) :=
    alGet_dailyPost_of_text_pos s ctx.fromId (by unfold textCount at hq ⊢; omega)
  have hens : ensurePost s ctx.fromId = s :=
    ensurePost_of_some s ctx.fromId _ hsome
  unfold memberPost
  rw [hens]
  have hq' : 5 ≤ (postQuota s ctx.fromId).text := hq
  simp [hp, hb, hg, htt, hq']

/-- Media post at the limit (no text part): rejected with the fixed quota
message, state exactly unchanged. -/
theorem memberPost_media_limit (cfg : Config) (now : Int) (s : BotState) (ctx : Ctx)
    (g : String)
    (hp : ctx.chatType = ChatType.privateChat)
    (hb : isBanned s ctx.fromId now = false)
    (hg : genderOf (jsOrText ctx.message) = some g)
    (htt : truthy ctx.message.text = false)
    (hpv : (ctx.message.photo || ctx.message.video) = true)
    (hq : 10 ≤ mediaCount s ctx.fromId) :
    memberPost cfg now s ctx = (s, [Effect.reply "❌ Batas media harian tercapai"]) := by
  have hsome : alGet s.dailyPost ctx.fromId = some (postQuota s ctx.fromId) :=
    alGet_dailyPost_of_media_pos s ctx.fromId (by unfold mediaCount at hq ⊢; omega)
  have hens : ensurePost s ctx.fromId = s :=
    ensurePost_of_some s ctx.fromId _ hsome
  unfold memberPost mediaStep
  rw [hens]
  have hq' : 10 ≤ (postQuota s ctx.fromId).media := hq
  simp [hp, hb, hg, htt, hpv, hq']

/-- Admitted text post (message with no media part): the text counter goes up
by exactly one, the other counters and all other users are untouched, and the
effects are exactly the relay to the target chat followed by the log line. -/
theorem memberPost_text_admit (cfg : Config) (now : Int) (s : BotState) (ctx : Ctx)
    (g : String)
    (hp : ctx.chatType = ChatType.privateChat)
    (hb : isBanned s ctx.fromId now = false)
    (hg : genderOf (jsOrText ctx.message) = some g)
    (htt : truthy ctx.message.text = true)
    (hnp : ctx.message.photo = false) (hnv : ctx.message.video = false)
    (hq : textCount s ctx.fromId < 5) :
    textCount (memberPost cfg now s ctx).1 ctx.fromId = textCount s ctx.fromId + 1 ∧
    (∀ u, u ≠ ctx.fromId →
      alGet (memberPost cfg now s ctx).1.dailyPost u = alGet s.dailyPost u) ∧
    mediaCount (memberPost cfg now s ctx).1 ctx.fromId = mediaCount s ctx.fromId ∧
    (memberPost cfg now s ctx).1.dailyDownload = s.dailyDownload ∧
    (memberPost cfg now s ctx).1.banned = s.banned ∧
    (memberPost cfg now s ctx).1.welcomed = s.welcomed ∧
    (memberPost cfg now s ctx).2 =
      [Effect.sendMessage cfg.target (ctx.message.text.getD ""),
       Effect.sendMessage cfg.logChat (logBody ctx g (ctx.message.text.getD ""))] := by
  have hq' : ¬5 ≤ (postQuota s ctx.fromId).text := by
    unfold textCount at hq; omega
  refine ⟨?_, ?_, ?_, (memberPost_frame cfg now s ctx).1,
    (memberPost_frame cfg now s ctx).2.1, (memberPost_frame cfg now s ctx).2.2, ?_⟩
  · unfold memberPost
    simp [hp, hb, hg, htt, hq', textCount, postQuota_alSet, getD_alGet_ensurePost,
      mediaStep_postQuota_text]
  · intro u hu
    unfold memberPost
    have hmu : ∀ s2 : BotState, alGet (mediaStep cfg s2 ctx g
        [Effect.sendMessage cfg.target (ctx.message.text.getD ""),
         Effect.sendMessage cfg.logChat (logBody ctx g (ctx.message.text.getD ""))]).1.dailyPost u
        = alGet s2.dailyPost u := by
      intro s2
      unfold mediaStep
      simp [hnp, hnv]
    simp [hp, hb, hg, htt, hq', hnp, hnv, mediaStep, alGet_alSet, Ne.symm hu]
    unfold ensurePost
    cases hdp : alGet s.dailyPost ctx.fromId <;>
      simp [alGet_alSet, Ne.symm hu, hdp]
  · unfold memberPost
    simp [hp, hb, hg, htt, hq', hnp, hnv, mediaStep, mediaCount, postQuota_alSet,
      getD_alGet_ensurePost]
  · unfold memberPost
    simp [hp, hb, hg, htt, hq', hnp, hnv, mediaStep]

/-- Admitted media post (no text part): the media counter goes up by exactly
one, everything else untouched, and the effects are exactly the media copy to
the target chat followed by the MEDIA log line. -/
theorem memberPost_media_admit (cfg : Config) (now : Int) (s : BotState) (ctx : Ctx)
    (g : String)
    (hp : ctx.chatType = ChatType.privateChat)
    (hb : isBanned s ctx.fromId now = false)
    (hg : genderOf (jsOrText ctx.message) = some g)
    (htt : truthy ctx.message.text = false)
    (hpv : (ctx.message.photo || ctx.message.video) = true)
    (hq : mediaCount s ctx.fromId < 10) :
    mediaCount (memberPost cfg now s ctx).1 ctx.fromId = mediaCount s ctx.fromId + 1 ∧
    (∀ u, u ≠ ctx.fromId →
      alGet (memberPost cfg now s ctx).1.dailyPost u = alGet s.dailyPost u) ∧
    textCount (memberPost cfg now s ctx).1 ctx.fromId = textCount s ctx.fromId ∧
    (memberPost cfg now s ctx).1.dailyDownload = s.dailyDownload ∧
    (memberPost cfg now s ctx).1.banned = s.banned ∧
    (memberPost cfg now s ctx).1.welcomed = s.welcomed ∧
    (memberPost cfg now s ctx).2 =
      [Effect.copyMessage cfg.target ctx.chatId ctx.message.messageId,
       Effect.sendMessage cfg.logChat (logBody ctx g "MEDIA")] := by
  have hq' : ¬10 ≤ (postQuota s ctx.fromId).media := by
    unfold mediaCount at hq; omega
  refine ⟨?_, ?_, ?_, (memberPost_frame cfg now s ctx).1,
    (memberPost_frame cfg now s ctx).2.1, (memberPost_frame cfg now s ctx).2.2, ?_⟩
  · unfold memberPost
    simp [hp, hb, hg, htt, hpv, hq', mediaStep, mediaCount, postQuota_alSet,
      alGet_alSet, getD_alGet_ensurePost]
  · intro u hu
    unfold memberPost mediaStep
    simp [hp, hb, hg, htt, hpv, hq', alGet_alSet, Ne.symm hu,
      getD_alGet_ensurePost]
    unfold ensurePost
    cases hdp : alGet s.dailyPost ctx.fromId <;>
      simp [alGet_alSet, Ne.symm hu, hdp]
  · unfold memberPost mediaStep
    simp [hp, hb, hg, htt, hpv, hq', textCount, postQuota_alSet, alGet_alSet,
      getD_alGet_ensurePost]
  · unfold memberPost mediaStep
    simp [hp, hb, hg, htt, hpv, hq', getD_alGet_ensurePost]

-- Reachable-state invariant machinery ---------------------------------------

/-- The counter bounds of the quota data model. -/
def QuotaInv (s : BotState) : Prop :=
  ∀ u, textCount s u ≤ 5 ∧ mediaCount s u ≤ 10 ∧ dlCount s u ≤ 2

theorem quotaInv_init : QuotaInv initState := by
  intro u
  simp [initState, textCount, mediaCount, dlCount, postQuota, alGet]

theorem quotaInv_step (cfg : Config) (s : BotState) (e : Ev) (h : QuotaInv s) :
    QuotaInv (stepEv cfg s e).1 := by
  cases e with
  | reset =>
    intro u
    simp [stepEv, applyReset, textCount, mediaCount, dlCount, postQuota, alGet]
  | upd now st ctx =>
    intro u
    obtain ⟨h1, h2, h3⟩ := h u
    simp only [stepEv]
    refine ⟨?_, ?_, ?_⟩
    · rcases dispatch_text_cases cfg now st s ctx u with hh | ⟨_, hlt, hh⟩ <;> omega
    · rcases dispatch_media_cases cfg now st s ctx u with hh | ⟨_, hlt, hh⟩ <;> omega
    · rw [dispatch_dlCount]; exact h3

theorem quotaInv_run (cfg : Config) (evs : List Ev) (s : BotState) (h : QuotaInv s) :
    QuotaInv (runEv cfg s evs).1 := by
  induction evs generalizing s with
  | nil => exact h
  | cons e t ih =>
    simp only [runEv]
    exact ih _ (quotaInv_step cfg s e h)

-- Welcome counting machinery --------------------------------------------------

/-- Does this effect welcome the given user id? -/
def isWelcomeOf (u : Nat) : Effect → Bool
  | Effect.welcome uid _ => uid == u
  | _ => false

/-- Number of welcome actions for user `u` in an effect list. -/
def countWelcome (l : List Effect) (u : Nat) : Nat := l.countP (isWelcomeOf u)

theorem countWelcome_append (a b : List Effect) (u : Nat) :
    countWelcome (a ++ b) u = countWelcome a u + countWelcome b u :=
  List.countP_append _ _ _

/-- 1 while the user still has a welcome available, 0 afterwards. -/
def welcomeGuard (s : BotState) (u : Nat) : Nat := if u ∈ s.welcomed then 0 else 1

theorem welcomeFold_count (u : Nat) (members : List Member)
    (acc : BotState × List Effect) :
    countWelcome (members.foldl welcomeStep acc).2 u
        + welcomeGuard (members.foldl welcomeStep acc).1 u
      ≤ countWelcome acc.2 u + welcomeGuard acc.1 u := by
  induction members generalizing acc with
  | nil => exact le_refl _
  | cons m rest ih =>
    rw [List.foldl_cons]
    refine le_trans (ih (welcomeStep acc m)) ?_
    unfold welcomeStep welcomeGuard
    by_cases hm : m.id ∈ acc.1.welcomed
    · simp [hm]
    · by_cases hmu : m.id = u
      · subst hmu
        simp [hm, countWelcome_append, countWelcome, isWelcomeOf]
      · simp [hm, countWelcome_append, countWelcome, isWelcomeOf, hmu, Ne.symm hmu]

theorem welcomeFold_mem_mono (u : Nat) (members : List Member)
    (acc : BotState × List Effect) (h : u ∈ acc.1.welcomed) :
    u ∈ (members.foldl welcomeStep acc).1.welcomed := by
  induction members generalizing acc with
  | nil => exact h
  | cons m rest ih =>
    rw [List.foldl_cons]
    refine ih (welcomeStep acc m) ?_
    unfold welcomeStep
    by_cases hm : m.id ∈ acc.1.welcomed <;> simp [hm, h]

theorem welcomeFold_count_mono (u : Nat) (members : List Member)
    (acc : BotState × List Effect) :
    countWelcome acc.2 u ≤ countWelcome (members.foldl welcomeStep acc).2 u := by
  induction members generalizing acc with
  | nil => exact le_refl _
  | cons m rest ih =>
    rw [List.foldl_cons]
    refine le_trans ?_ (ih (welcomeStep acc m))
    unfold welcomeStep
    by_cases hm : m.id ∈ acc.1.welcomed
    · simp [hm]
    · simp [hm, countWelcome_append]

theorem welcomeFold_emit (u : Nat) (members : List Member)
    (acc : BotState × List Effect) (hnm : u ∉ acc.1.welcomed)
    (hm : ∃ m ∈ members, m.id = u) :
    1 ≤ countWelcome (members.foldl welcomeStep acc).2 u := by
  induction members generalizing acc with
  | nil => simp at hm
  | cons m rest ih =>
    rw [List.foldl_cons]
    by_cases hid : m.id = u
    · refine le_trans ?_ (welcomeFold_count_mono u rest (welcomeStep acc m))
      unfold welcomeStep
      rw [hid]
      simp [hnm, countWelcome_append, countWelcome, isWelcomeOf]
    · obtain ⟨m', hm', hid'⟩ := hm
      have hm'rest : m' ∈ rest := by
        rcases List.mem_cons.mp hm' with hcase | hcase
        · exact absurd (hcase ▸ hid') hid
        · exact hcase
      refine ih (welcomeStep acc m) ?_ ⟨m', hm'rest, hid'⟩
      unfold welcomeStep
      by_cases hmm : m.id ∈ acc.1.welcomed
      · simp [hmm, hnm]
      · simp [hmm]
        exact ⟨fun hh => hid hh.symm, hnm⟩

theorem mediaStep_effs_welfree (cfg : Config) (s : BotState) (ctx : Ctx)
    (g : String) (effs : List Effect) (u : Nat)
    (h : ∀ a ∈ effs, isWelcomeOf u a = false) :
    ∀ a ∈ (mediaStep cfg s ctx g effs).2, isWelcomeOf u a = false := by
  unfold mediaStep
  by_cases hpv : (ctx.message.photo || ctx.message.video) = true
  · by_cases hq : (postQuota s ctx.fromId).media ≥ 10
    · simp only [hpv, hq, if_true, if_pos]
      intro a ha
      rcases List.mem_append.mp ha with h1 | h1
      · exact h a h1
      · simp only [List.mem_singleton] at h1
        subst h1; rfl
    · simp only [hpv, hq, if_true, if_neg, if_false]
      intro a ha
      rcases List.mem_append.mp ha with h1 | h1
      · exact h a h1
      · simp only [List.mem_cons, List.mem_singleton, List.not_mem_nil,
          or_false] at h1
        rcases h1 with h1 | h1 <;> (subst h1; rfl)
  · simp only [hpv, if_neg, if_false]
    exact h

theorem mediaStep_countWelcome (cfg : Config) (s : BotState) (ctx : Ctx)
    (g : String) (effs : List Effect) (u : Nat) :
    countWelcome (mediaStep cfg s ctx g effs).2 u = countWelcome effs u := by
  unfold mediaStep
  by_cases hpv : (ctx.message.photo || ctx.message.video) = true
  · by_cases hq : (postQuota s ctx.fromId).media ≥ 10 <;>
      simp [hpv, hq, countWelcome_append, countWelcome, isWelcomeOf]
  · simp [hpv]

theorem memberPost_countWelcome (cfg : Config) (now : Int) (s : BotState)
    (ctx : Ctx) (u : Nat) :
    countWelcome (memberPost cfg now s ctx).2 u = 0 := by
  unfold memberPost
  by_cases hp : ctx.chatType ≠ ChatType.privateChat
  · simp [hp, countWelcome, isWelcomeOf]
  by_cases hb : isBanned s ctx.fromId now = true
  · simp [hp, hb, countWelcome, isWelcomeOf]
  cases hg : genderOf (jsOrText ctx.message) with
  | none => simp [hp, hb, hg, countWelcome, isWelcomeOf]
  | some g =>
    by_cases htt : truthy ctx.message.text = true
    · by_cases hq : 5 ≤ (postQuota s ctx.fromId).text
      · simp [hp, hb, hg, htt, hq, countWelcome, isWelcomeOf]
      · simp [hp, hb, hg, htt, hq, countWelcome, isWelcomeOf]
        exact mediaStep_effs_welfree cfg _ ctx g _ u (by simp [isWelcomeOf])
    · simp [hp, hb, hg, htt, countWelcome, isWelcomeOf]
      exact mediaStep_effs_welfree cfg _ ctx g _ u (by simp)

theorem dispatch_welcome_count (cfg : Config) (now : Int) (st : String)
    (s : BotState) (ctx : Ctx) (u : Nat) :
    countWelcome (dispatch cfg now st s ctx).2 u
        + welcomeGuard (dispatch cfg now st s ctx).1 u
      ≤ welcomeGuard s u := by
  rw [dispatch_eq]
  split
  · rw [memberPost_countWelcome]
    have hw : welcomeGuard (memberPost cfg now s ctx).1 u = welcomeGuard s u := by
      unfold welcomeGuard
      rw [(memberPost_frame cfg now s ctx).2.2]
    omega
  split
  · have h := welcomeFold_count u ctx.message.newChatMembers (s, [])
    unfold welcomeHandler
    simpa [countWelcome, isWelcomeOf] using h
  · simp [countWelcome, isWelcomeOf]

theorem dispatch_welcomed_mono (cfg : Config) (now : Int) (st : String)
    (s : BotState) (ctx : Ctx) (u : Nat) (h : u ∈ s.welcomed) :
    u ∈ (dispatch cfg now st s ctx).1.welcomed := by
  rw [dispatch_eq]
  split
  · rw [(memberPost_frame cfg now s ctx).2.2]; exact h
  split
  · exact welcomeFold_mem_mono u ctx.message.newChatMembers (s, []) h
  · exact h

theorem runEv_welcome_count (cfg : Config) (evs : List Ev) (s : BotState) (u : Nat) :
    countWelcome (runEv cfg s evs).2 u + welcomeGuard (runEv cfg s evs).1 u
      ≤ welcomeGuard s u := by
  induction evs generalizing s with
  | nil => simp [runEv, countWelcome, isWelcomeOf]
  | cons e t ih =>
    have hstep : countWelcome (stepEv cfg s e).2 u
        + welcomeGuard (stepEv cfg s e).1 u ≤ welcomeGuard s u := by
      cases e with
      | upd now st ctx => exact dispatch_welcome_count cfg now st s ctx u
      | reset => simp [stepEv, applyReset, welcomeGuard, countWelcome, isWelcomeOf]
    have hrest := ih (stepEv cfg s e).1
    simp only [runEv, countWelcome_append]
    omega

theorem dispatch_welcome_zero (cfg : Config) (now : Int) (st : String)
    (s : BotState) (ctx : Ctx) (u : Nat) (h : u ∈ s.welcomed) :
    countWelcome (dispatch cfg now st s ctx).2 u = 0 := by
  have hc := dispatch_welcome_count cfg now st s ctx u
  unfold welcomeGuard at hc
  simp [h] at hc
  omega

theorem dispatch_welcome_emit (cfg : Config) (now : Int) (st : String)
    (s : BotState) (ctx : Ctx) (u : Nat) (m : Member)
    (hm : matchesPost ctx.message = false)
    (hmem : m ∈ ctx.message.newChatMembers) (hid : m.id = u)
    (hnw : u ∉ s.welcomed) :
    countWelcome (dispatch cfg now st s ctx).2 u = 1 ∧
    u ∈ (dispatch cfg now st s ctx).1.welcomed := by
  have hne : ctx.message.newChatMembers ≠ [] := by
    intro hh; rw [hh] at hmem; simp at hmem
  have hd : dispatch cfg now st s ctx = welcomeHandler s ctx := by
    rw [dispatch_eq]; simp [hm, hne]
  rw [hd]
  unfold welcomeHandler
  have hemit : 1 ≤ countWelcome (ctx.message.newChatMembers.foldl welcomeStep (s, [])).2 u :=
    welcomeFold_emit u _ (s, []) hnw ⟨m, hmem, hid⟩
  have hcz : countWelcome ([] : List Effect) u = 0 := rfl
  have hcount := welcomeFold_count u ctx.message.newChatMembers (s, [])
  unfold welcomeGuard at hcount
  simp only [hcz] at hcount
  simp [hnw] at hcount
  by_cases hW : u ∈ (ctx.message.newChatMembers.foldl welcomeStep (s, [])).1.welcomed
  · simp [hW] at hcount
    exact ⟨by omega, hW⟩
  · simp [hW] at hcount
    exact absurd hemit (by omega)

/-- No effect of the member-post handler under a ban, the welcome handler, or
the idle paths is a relay (sendMessage/copyMessage). -/
def isRelay : Effect → Bool
  | Effect.sendMessage _ _ => true
  | Effect.copyMessage _ _ _ => true
  | _ => false

theorem welcomeFold_relay_free (members : List Member) (acc : BotState × List Effect)
    (h : ∀ a ∈ acc.2, isRelay a = false) :
    ∀ a ∈ (members.foldl welcomeStep acc).2, isRelay a = false := by
  induction members generalizing acc with
  | nil => exact h
  | cons m rest ih =>
    rw [List.foldl_cons]
    refine ih (welcomeStep acc m) ?_
    unfold welcomeStep
    by_cases hm : m.id ∈ acc.1.welcomed
    · simp only [hm, if_pos]
      exact h
    · simp only [hm, if_neg, if_false]
      intro a ha
      rcases List.mem_append.mp ha with h1 | h1
      · exact h a h1
      · simp only [List.mem_singleton] at h1
        subst h1; rfl

theorem memberPost_banned_state (cfg : Config) (now : Int) (s : BotState) (ctx : Ctx)
    (hb : isBanned s ctx.fromId now = true) :
    (memberPost cfg now s ctx).1 = s ∧
    ∀ a ∈ (memberPost cfg now s ctx).2, isRelay a = false := by
  by_cases hp : ctx.chatType = ChatType.privateChat
  · rw [memberPost_banned cfg now s ctx hp hb]
    exact ⟨rfl, by intro a ha; simp only [List.mem_singleton] at ha; subst ha; rfl⟩
  · rw [memberPost_nonprivate cfg now s ctx hp]
    exact ⟨rfl, by intro a ha; simp at ha⟩

/-- The download handler at the limit: fixed reply, state unchanged. -/
theorem downloadHandler_limit (s : BotState) (ctx : Ctx)
    (hq : 2 ≤ dlCount s ctx.fromId) :
    downloadHandler s ctx = (s, [Effect.reply "❌ Limit download harian tercapai"]) := by
  have hsome : alGet s.dailyDownload ctx.fromId = some (dlCount s ctx.fromId) :=
    alGet_dailyDownload_of_pos s ctx.fromId (by omega)
  unfold downloadHandler
  rw [hsome]
  simp [hsome, hq]

theorem runEv_banned (cfg : Config) (evs : List Ev) (s : BotState) :
    (runEv cfg s evs).1.banned = s.banned := by
  induction evs generalizing s with
  | nil => rfl
  | cons e t ih =>
    simp only [runEv]
    rw [ih (stepEv cfg s e).1]
    cases e with
    | upd now st ctx => exact dispatch_banned cfg now st s ctx
    | reset => rfl

theorem runEv_dailyDownload_nil (cfg : Config) (evs : List Ev) (s : BotState)
    (h : s.dailyDownload = []) : (runEv cfg s evs).1.dailyDownload = [] := by
  induction evs generalizing s with
  | nil => exact h
  | cons e t ih =>
    simp only [runEv]
    refine ih (stepEv cfg s e).1 ?_
    cases e with
    | upd now st ctx => exact (dispatch_dailyDownload cfg now st s ctx).trans h
    | reset => rfl

-- Concrete sample inputs (used by witnesses and counterexamples) -------------

def cfgS : Config := ⟨100, 200, 10⟩

def msgTextS (t : String) : Message := ⟨some t, none, false, false, [], 1⟩

def ctxTextS (uid : Nat) (t : String) : Ctx :=
  ⟨ChatType.privateChat, 50, uid, "Budi", none, msgTextS t⟩

def msgPhotoS (c : String) : Message := ⟨none, some c, true, false, [], 2⟩

def ctxPhotoS (uid : Nat) (c : String) : Ctx :=
  ⟨ChatType.privateChat, 50, uid, "Budi", none, msgPhotoS c⟩

def ctxGroupLinkS : Ctx :=
  ⟨ChatType.group, 60, 7, "Budi", none, msgTextS "http://contoh.tautan"⟩

def ctxJoinS : Ctx :=
  ⟨ChatType.group, 60, 99, "Admin", none, ⟨none, none, false, false, [⟨3, "Ani"⟩], 5⟩⟩

def sTextLimitS : BotState := ⟨[(7, ⟨5, 0⟩)], [], [], []⟩

def sMediaLimitS : BotState := ⟨[(7, ⟨0, 10⟩)], [], [], []⟩

def sDlLimitS : BotState := ⟨[], [(7, 2)], [], []⟩

def sBannedS : BotState := ⟨[], [], [], [("7", 500)]⟩

-- Claim theorems --------------------------------------------------------------

/-- C1: for a private-chat message carrying a valid classification tag from a
non-banned user, a text post is rejected with the fixed quota reply and the
state left exactly unchanged when the text counter has reached 5, and
otherwise the text counter goes up by exactly one while the handler relays
the text to the target chat and emits a log line; a photo/video post behaves
the same way against the media limit 10 with a copy to the target chat and a
MEDIA log line; a user with no quota entry reads as both counters zero (the
entry is created lazily, zero-initialized). -/
theorem c1_private_post_quota (cfg : Config) (now : Int) (s : BotState)
    (ctx : Ctx) (g : String)
    (hp : ctx.chatType = ChatType.privateChat)
    (hb : isBanned s ctx.fromId now = false)
    (hg : genderOf (jsOrText ctx.message) = some g) :
    ((truthy ctx.message.text = true ∧ ctx.message.photo = false ∧
        ctx.message.video = false) →
      (5 ≤ textCount s ctx.fromId →
        memberPost cfg now s ctx = (s, [Effect.reply "❌ Batas teks harian tercapai"])) ∧
      (textCount s ctx.fromId < 5 →
        textCount (memberPost cfg now s ctx).1 ctx.fromId = textCount s ctx.fromId + 1 ∧
        mediaCount (memberPost cfg now s ctx).1 ctx.fromId = mediaCount s ctx.fromId ∧
        (memberPost cfg now s ctx).1.dailyDownload = s.dailyDownload ∧
        (memberPost cfg now s ctx).1.banned = s.banned ∧
        (memberPost cfg now s ctx).2 =
          [Effect.sendMessage cfg.target (ctx.message.text.getD ""),
           Effect.sendMessage cfg.logChat (logBody ctx g (ctx.message.text.getD ""))])) ∧
    ((truthy ctx.message.text = false ∧ (ctx.message.photo || ctx.message.video) = true) →
      (10 ≤ mediaCount s ctx.fromId →
        memberPost cfg now s ctx = (s, [Effect.reply "❌ Batas media harian tercapai"])) ∧
      (mediaCount s ctx.fromId < 10 →
        mediaCount (memberPost cfg now s ctx).1 ctx.fromId = mediaCount s ctx.fromId + 1 ∧
        textCount (memberPost cfg now s ctx).1 ctx.fromId = textCount s ctx.fromId ∧
        (memberPost cfg now s ctx).1.dailyDownload = s.dailyDownload ∧
        (memberPost cfg now s ctx).1.banned = s.banned ∧
        (memberPost cfg now s ctx).2 =
          [Effect.copyMessage cfg.target ctx.chatId ctx.message.messageId,
           Effect.sendMessage cfg.logChat (logBody ctx g "MEDIA")])) ∧
    (alGet s.dailyPost ctx.fromId = none →
      textCount s ctx.fromId = 0 ∧ mediaCount s ctx.fromId = 0) := by
  refine ⟨?_, ?_, ?_⟩
  · rintro ⟨htt, hnp, hnv⟩
    constructor
    · intro hq
      exact memberPost_text_limit cfg now s ctx g hp hb hg htt hq
    · intro hq
      obtain ⟨h1, _, h3, h4, h5, _, h7⟩ :=
        memberPost_text_admit cfg now s ctx g hp hb hg htt hnp hnv hq
      exact ⟨h1, h3, h4, h5, h7⟩
  · rintro ⟨htt, hpv⟩
    constructor
    · intro hq
      exact memberPost_media_limit cfg now s ctx g hp hb hg htt hpv hq
    · intro hq
      obtain ⟨h1, _, h3, h4, h5, _, h7⟩ :=
        memberPost_media_admit cfg now s ctx g hp hb hg htt hpv hq
      exact ⟨h1, h3, h4, h5, h7⟩
  · intro hnone
    unfold textCount mediaCount postQuota
    rw [hnone]
    exact ⟨rfl, rfl⟩

/-- C2: over every run of the polling bot from the initial state, every
user's text counter stays at most 5, the media counter at most 10 and the
download counter at most 2 (all trivially non-negative as naturals); no
non-reset event ever decreases a counter; and a counter that sits at its
limit causes every further attempt of that category to be rejected with the
fixed quota reply and an unchanged state. -/
theorem c2_counter_invariants (cfg : Config) (evs : List Ev) (u : Nat) :
    (textCount (runEv cfg initState evs).1 u ≤ 5 ∧
     mediaCount (runEv cfg initState evs).1 u ≤ 10 ∧
     dlCount (runEv cfg initState evs).1 u ≤ 2) ∧
    (∀ e, e ≠ Ev.reset →
      textCount (runEv cfg initState evs).1 u
          ≤ textCount (stepEv cfg (runEv cfg initState evs).1 e).1 u ∧
      mediaCount (runEv cfg initState evs).1 u
          ≤ mediaCount (stepEv cfg (runEv cfg initState evs).1 e).1 u ∧
      dlCount (runEv cfg initState evs).1 u
          ≤ dlCount (stepEv cfg (runEv cfg initState evs).1 e).1 u) ∧
    (∀ (now : Int) (s : BotState) (ctx : Ctx) (g : String), ctx.fromId = u →
      ctx.chatType = ChatType.privateChat → isBanned s u now = false →
      genderOf (jsOrText ctx.message) = some g → truthy ctx.message.text = true →
      textCount s u = 5 →
      memberPost cfg now s ctx = (s, [Effect.reply "❌ Batas teks harian tercapai"])) ∧
    (∀ (now : Int) (s : BotState) (ctx : Ctx) (g : String), ctx.fromId = u →
      ctx.chatType = ChatType.privateChat → isBanned s u now = false →
      genderOf (jsOrText ctx.message) = some g → truthy ctx.message.text = false →
      (ctx.message.photo || ctx.message.video) = true →
      mediaCount s u = 10 →
      memberPost cfg now s ctx = (s, [Effect.reply "❌ Batas media harian tercapai"])) ∧
    (∀ (s : BotState) (ctx : Ctx), ctx.fromId = u → dlCount s u = 2 →
      downloadHandler s ctx = (s, [Effect.reply "❌ Limit download harian tercapai"])) := by
  refine ⟨quotaInv_run cfg evs initState quotaInv_init u, ?_, ?_, ?_, ?_⟩
  · intro e he
    cases e with
    | reset => exact absurd rfl he
    | upd now st ctx =>
      simp only [stepEv]
      refine ⟨?_, ?_, ?_⟩
      · rcases dispatch_text_cases cfg now st (runEv cfg initState evs).1 ctx u with
          hh | ⟨_, _, hh⟩ <;> omega
      · rcases dispatch_media_cases cfg now st (runEv cfg initState evs).1 ctx u with
          hh | ⟨_, _, hh⟩ <;> omega
      · rw [dispatch_dlCount]
  · intro now s ctx g hu hp hbn hg htt hq
    subst hu
    exact memberPost_text_limit cfg now s ctx g hp hbn hg htt (by omega)
  · intro now s ctx g hu hp hbn hg htt hpv hq
    subst hu
    exact memberPost_media_limit cfg now s ctx g hp hbn hg htt hpv (by omega)
  · intro s ctx hu h2
    subst hu
    exact downloadHandler_limit s ctx (by omega)

/-- C3: a group-chat text message containing a link from a non-administrator.
The spec (and the ANTI LINK section of the code) expects the message to be
deleted and the sender banned for exactly one hour, and the anti-link handler
in isolation does exactly that; but the deployed middleware chain does
nothing at all on this input, because the member-post handler consumes every
text update without calling next(), so the anti-link handler never runs. -/
theorem c3_group_link_dead :
    dispatch cfgS 0 "member" initState ctxGroupLinkS = (initState, []) ∧
    antiLink 0 "member" initState ctxGroupLinkS
      = ({ initState with banned := [("7", 3600000)] }, [Effect.deleteMessage]) := by
  constructor
  · decide
  · decide

/-- C4: while a user is banned (stored expiry strictly in the future), no
action of that user is admitted by the dispatcher: a private text/photo/video
post attempt is answered with exactly the fixed ban reply and leaves the
state unchanged, and for every update from that user the post and download
counters are untouched, no ban is written, and no relay (sendMessage or
copyMessage) is emitted. -/
theorem c4_banned_rejected (cfg : Config) (now : Int) (st : String)
    (s : BotState) (ctx : Ctx) (hb : isBanned s ctx.fromId now = true) :
    (ctx.chatType = ChatType.privateChat → matchesPost ctx.message = true →
      dispatch cfg now st s ctx = (s, [Effect.reply "⛔ Kamu sedang diban sementara."])) ∧
    (dispatch cfg now st s ctx).1.dailyPost = s.dailyPost ∧
    (dispatch cfg now st s ctx).1.dailyDownload = s.dailyDownload ∧
    (dispatch cfg now st s ctx).1.banned = s.banned ∧
    (∀ a ∈ (dispatch cfg now st s ctx).2, isRelay a = false) := by
  refine ⟨?_, ?_, dispatch_dailyDownload cfg now st s ctx,
    dispatch_banned cfg now st s ctx, ?_⟩
  · intro hp hm
    rw [dispatch_eq]
    simp only [hm, if_true]
    exact memberPost_banned cfg now s ctx hp hb
  · rw [dispatch_eq]
    split
    · rw [(memberPost_banned_state cfg now s ctx hb).1]
    split
    · exact (welcomeHandler_frame s ctx).1
    · rfl
  · rw [dispatch_eq]
    split
    · exact (memberPost_banned_state cfg now s ctx hb).2
    split
    · exact welcomeFold_relay_free ctx.message.newChatMembers (s, [])
        (by intro a ha; simp at ha)
    · intro a ha; simp at ha

/-- C5 counterexample: the explicit duration argument 0 is non-positive, yet
the ban command stores expiry now + 0 (an immediately expired ban), not
now + 1 hour as the claim states. -/
theorem c5_zero_duration_cex :
    (banCmd cfgS 1000 initState 10 "7" (some 0)).1.banned = [("7", 1000)] ∧
    (1000 : Int) ≠ 1000 + 1 * (60 * 60 * 1000) := by
  constructor
  · decide
  · decide

/-- C5 (amended): the ban command run by the owner overwrites the target's
ban expiry with now + jam hours where jam is the given numeric argument
(used as-is even when zero or negative), leaves every other user's record
unchanged, and the 1-hour default applies exactly when the argument is
absent (or an empty/falsy token), not when it is a non-positive number. -/
theorem c5_ban_expiry (cfg : Config) (now : Int) (s : BotState) (tid : String)
    (jam : Option Int) :
    alGet (banCmd cfg now s cfg.owner tid jam).1.banned tid
      = some (now + jsOrInt jam * (60 * 60 * 1000)) ∧
    (∀ t2, t2 ≠ tid →
      alGet (banCmd cfg now s cfg.owner tid jam).1.banned t2 = alGet s.banned t2) ∧
    (jam = none → jsOrInt jam = 1) ∧
    (∀ j, jam = some j → jsOrInt jam = j) := by
  refine ⟨?_, ?_, ?_, ?_⟩
  · simp [banCmd, alGet_alSet]
  · intro t2 ht
    simp [banCmd, alGet_alSet, Ne.symm ht]
  · intro h; rw [h]; rfl
  · intro j h; rw [h]; rfl

/-- C6: isBanned is true exactly when a ban record exists with stored expiry
strictly greater than the current time (given the real-world invariant that
clock values are non-negative); banning a user for 1 hour makes isBanned true
immediately and false at any instant more than one hour later. -/
theorem c6_isBanned_iff (s : BotState) (u : Nat) (now : Int) (h0 : 0 ≤ now) :
    (isBanned s u now = true ↔
      ∃ e, alGet s.banned (toString u) = some e ∧ now < e) ∧
    (∀ cfg : Config,
      isBanned (banCmd cfg now s cfg.owner (toString u) (some 1)).1 u now = true ∧
      ∀ later, now + 1 * (60 * 60 * 1000) < later →
        isBanned (banCmd cfg now s cfg.owner (toString u) (some 1)).1 u later = false) := by
  constructor
  · unfold isBanned
    cases he : alGet s.banned (toString u) with
    | none => simp
    | some e =>
      by_cases hz : e = 0
      · subst hz
        simp
        omega
      · simp [hz]
  · intro cfg
    have hE : alGet (banCmd cfg now s cfg.owner (toString u) (some 1)).1.banned
        (toString u) = some (now + 1 * (60 * 60 * 1000)) := by
      simp [banCmd, alGet_alSet, jsOrInt]
    have h1 : ¬(now + 1 * (60 * 60 * 1000) = 0) := by omega
    constructor
    · unfold isBanned
      rw [hE]
      simp [h1]
      omega
    · intro later hl
      unfold isBanned
      rw [hE]
      simp [h1]
      omega

/-- C7: resetDaily empties both quota maps, so every user's text, media and
download counters read 0 afterwards, and it leaves the ban records and the
welcomed set exactly unchanged. -/
theorem c7_resetDaily (s : BotState) :
    (applyReset s).dailyPost = [] ∧ (applyReset s).dailyDownload = [] ∧
    (∀ u, textCount (applyReset s) u = 0 ∧ mediaCount (applyReset s) u = 0 ∧
      dlCount (applyReset s) u = 0) ∧
    (applyReset s).banned = s.banned ∧ (applyReset s).welcomed = s.welcomed := by
  refine ⟨rfl, rfl, ?_, rfl, rfl⟩
  intro u
  simp [applyReset, textCount, mediaCount, dlCount, postQuota, alGet]

/-- C8: every ban/unban/kick command from a sender other than the configured
owner returns silently with the whole state unchanged and no reply; from the
owner, ban stores the ban record and replies, unban deletes the record and
replies, and kick emits the kick action and replies. -/
theorem c8_admin_owner_gate (cfg : Config) (now : Int) (s : BotState)
    (sender chat : Nat) (tid : String) (jam : Option Int) :
    (sender ≠ cfg.owner →
      banCmd cfg now s sender tid jam = (s, []) ∧
      unbanCmd cfg s sender tid = (s, []) ∧
      kickCmd cfg s sender chat tid = (s, [])) ∧
    (sender = cfg.owner →
      (banCmd cfg now s sender tid jam).2 = [Effect.reply ("User " ++ tid ++ " diban")] ∧
      alGet (banCmd cfg now s sender tid jam).1.banned tid
        = some (now + jsOrInt jam * (60 * 60 * 1000)) ∧
      (unbanCmd cfg s sender tid).2 = [Effect.reply "Unban berhasil"] ∧
      alGet (unbanCmd cfg s sender tid).1.banned tid = none ∧
      kickCmd cfg s sender chat tid
        = (s, [Effect.kickMember chat tid, Effect.reply "User dikick"])) := by
  constructor
  · intro h
    exact ⟨by simp [banCmd, h], by simp [unbanCmd, h], by simp [kickCmd, h]⟩
  · intro h
    subst h
    exact ⟨by simp [banCmd], by simp [banCmd, alGet_alSet], by simp [unbanCmd],
      by simp [unbanCmd, alGet_alDel], by simp [kickCmd]⟩

/-- C9: over every run from the initial state, the welcome action is emitted
at most once per user identifier; the first new-member event naming a not yet
welcomed identifier emits exactly one welcome for it and inserts it into the
welcomed set; once the identifier is in the set no update emits a welcome for
it again and it stays in the set; and resetDaily never touches the set. -/
theorem c9_welcome_once (cfg : Config) (evs : List Ev) (u : Nat) :
    countWelcome (runEv cfg initState evs).2 u ≤ 1 ∧
    (∀ (now : Int) (st : String) (s : BotState) (ctx : Ctx) (m : Member),
      matchesPost ctx.message = false → m ∈ ctx.message.newChatMembers →
      m.id = u → u ∉ s.welcomed →
      countWelcome (dispatch cfg now st s ctx).2 u = 1 ∧
      u ∈ (dispatch cfg now st s ctx).1.welcomed) ∧
    (∀ (now : Int) (st : String) (s : BotState) (ctx : Ctx), u ∈ s.welcomed →
      countWelcome (dispatch cfg now st s ctx).2 u = 0 ∧
      u ∈ (dispatch cfg now st s ctx).1.welcomed) ∧
    (∀ s : BotState, (applyReset s).welcomed = s.welcomed) := by
  refine ⟨?_, ?_, ?_, fun s => rfl⟩
  · have h := runEv_welcome_count cfg evs initState u
    have hg : welcomeGuard initState u = 1 := by simp [welcomeGuard, initState]
    omega
  · intro now st s ctx m hm hmem hid hnw
    exact dispatch_welcome_emit cfg now st s ctx u m hm hmem hid hnw
  · intro now st s ctx h
    exact ⟨dispatch_welcome_zero cfg now st s ctx u h,
      dispatch_welcomed_mono cfg now st s ctx u h⟩

/-- C10: in the polling variant every update carrying text is fully consumed
by the member-post handler (dispatch equals that handler alone), so the hears
download handler and the anti-link handler never run on it; consequently no
dispatch ever changes the download map or the ban map, and over every run
from the initial state the download map stays empty and no ban record is
ever created. -/
theorem c10_polling_text_consumed (cfg : Config) (now : Int) (st : String)
    (s : BotState) (ctx : Ctx) (evs : List Ev) :
    (ctx.message.text.isSome = true →
      dispatch cfg now st s ctx = memberPost cfg now s ctx) ∧
    (dispatch cfg now st s ctx).1.dailyDownload = s.dailyDownload ∧
    (dispatch cfg now st s ctx).1.banned = s.banned ∧
    (runEv cfg initState evs).1.dailyDownload = [] ∧
    (runEv cfg initState evs).1.banned = [] := by
  refine ⟨?_, dispatch_dailyDownload cfg now st s ctx,
    dispatch_banned cfg now st s ctx,
    runEv_dailyDownload_nil cfg evs initState rfl,
    runEv_banned cfg evs initState⟩
  intro h
  rw [dispatch_eq]
  have hm : matchesPost ctx.message = true := by simp [matchesPost, h]
  simp [hm]

-- Witnesses -------------------------------------------------------------------

/-- Witness for C1 at a concrete tagged text message: the first post is
admitted and counts 1; at a full counter the fixed reject is returned. -/
theorem c1_witness :
    textCount (memberPost cfgS 0 initState (ctxTextS 7 "halo #pria")).1
      (ctxTextS 7 "halo #pria").fromId = 1 ∧
    memberPost cfgS 0 sTextLimitS (ctxTextS 7 "halo #pria")
      = (sTextLimitS, [Effect.reply "❌ Batas teks harian tercapai"]) := by
  have h1 := c1_private_post_quota cfgS 0 initState (ctxTextS 7 "halo #pria") "Pria"
    rfl (by decide) (by decide)
  have h2 := c1_private_post_quota cfgS 0 sTextLimitS (ctxTextS 7 "halo #pria") "Pria"
    rfl (by decide) (by decide)
  constructor
  · exact ((h1.1 ⟨by decide, rfl, rfl⟩).2 (by decide)).1.trans (by decide)
  · exact (h2.1 ⟨by decide, rfl, rfl⟩).1 (by decide)

/-- Witness for C2 at a concrete run and concrete at-limit states. -/
theorem c2_witness :
    textCount (runEv cfgS initState [Ev.upd 0 "member" (ctxTextS 7 "halo #pria")]).1 7 ≤ 5 ∧
    memberPost cfgS 0 sTextLimitS (ctxTextS 7 "hai #pria")
      = (sTextLimitS, [Effect.reply "❌ Batas teks harian tercapai"]) ∧
    downloadHandler sDlLimitS (ctxTextS 7 "http://x")
      = (sDlLimitS, [Effect.reply "❌ Limit download harian tercapai"]) := by
  have h := c2_counter_invariants cfgS [Ev.upd 0 "member" (ctxTextS 7 "halo #pria")] 7
  refine ⟨h.1.1, ?_, ?_⟩
  · exact h.2.2.1 0 sTextLimitS (ctxTextS 7 "hai #pria") "Pria" rfl rfl (by decide)
      (by decide) (by decide) (by decide)
  · exact h.2.2.2.2 sDlLimitS (ctxTextS 7 "http://x") rfl (by decide)

/-- Witness for C4: a banned user's private tagged post is answered with the
ban reply and the post-quota map is untouched. -/
theorem c4_witness :
    dispatch cfgS 400 "member" sBannedS (ctxTextS 7 "halo #pria")
      = (sBannedS, [Effect.reply "⛔ Kamu sedang diban sementara."]) ∧
    (dispatch cfgS 400 "member" sBannedS (ctxTextS 7 "halo #pria")).1.dailyPost
      = sBannedS.dailyPost := by
  have h := c4_banned_rejected cfgS 400 "member" sBannedS (ctxTextS 7 "halo #pria")
    (by decide)
  exact ⟨h.1 rfl (by decide), h.2.1⟩

/-- Witness for the amended C5 at the concrete duration argument 0. -/
theorem c5_witness :
    alGet (banCmd cfgS 1000 initState cfgS.owner "7" (some 0)).1.banned "7"
      = some 1000 ∧
    alGet (banCmd cfgS 1000 initState cfgS.owner "7" (some 0)).1.banned "8" = none := by
  have h := c5_ban_expiry cfgS 1000 initState "7" (some 0)
  exact ⟨h.1.trans (by decide), (h.2.1 "8" (by decide)).trans (by decide)⟩

/-- Witness for C6 at a concrete clock value. -/
theorem c6_witness :
    isBanned (banCmd cfgS 5 initState cfgS.owner (toString 3) (some 1)).1 3 5 = true ∧
    isBanned (banCmd cfgS 5 initState cfgS.owner (toString 3) (some 1)).1 3
      99999999 = false := by
  have h := (c6_isBanned_iff initState 3 5 (by decide)).2 cfgS
  exact ⟨h.1, h.2 99999999 (by decide)⟩

/-- Witness for C8: a non-owner command is a silent no-op, the owner's unban
removes the record and kick emits the kick action with its reply. -/
theorem c8_witness :
    banCmd cfgS 0 sBannedS 3 "7" none = (sBannedS, []) ∧
    alGet (unbanCmd cfgS sBannedS 10 "7").1.banned "7" = none ∧
    kickCmd cfgS sBannedS 10 55 "9"
      = (sBannedS, [Effect.kickMember 55 "9", Effect.reply "User dikick"]) := by
  have h1 := c8_admin_owner_gate cfgS 0 sBannedS 3 55 "7" none
  have h2 := c8_admin_owner_gate cfgS 0 sBannedS 10 55 "7" none
  have h3 := c8_admin_owner_gate cfgS 0 sBannedS 10 55 "9" none
  exact ⟨(h1.1 (by decide)).1, (h2.2 (by decide)).2.2.2.1, (h3.2 (by decide)).2.2.2.2⟩

/-- Witness for C9 at a concrete duplicated join event. -/
theorem c9_witness :
    countWelcome (runEv cfgS initState
      [Ev.upd 0 "member" ctxJoinS, Ev.upd 0 "member" ctxJoinS]).2 3 ≤ 1 ∧
    countWelcome (dispatch cfgS 0 "member" initState ctxJoinS).2 3 = 1 := by
  have h := c9_welcome_once cfgS
    [Ev.upd 0 "member" ctxJoinS, Ev.upd 0 "member" ctxJoinS] 3
  refine ⟨h.1, ?_⟩
  exact (h.2.1 0 "member" initState ctxJoinS ⟨3, "Ani"⟩ (by decide) (by decide) rfl
    (by decide)).1

/-- Witness for C10 at a concrete link-bearing text update. -/
theorem c10_witness :
    dispatch cfgS 0 "member" sDlLimitS (ctxTextS 7 "http://x")
      = memberPost cfgS 0 sDlLimitS (ctxTextS 7 "http://x") ∧
    (runEv cfgS initState
      [Ev.upd 0 "member" (ctxTextS 7 "http://x #pria")]).1.banned = [] := by
  have h := c10_polling_text_consumed cfgS 0 "member" sDlLimitS (ctxTextS 7 "http://x")
    [Ev.upd 0 "member" (ctxTextS 7 "http://x #pria")]
  exact ⟨h.1 rfl, h.2.2.2.2⟩
